import Mathlib

/-!
Verification of the RIMRO metaworld task environments (button press wall,
plate slide back side, reach, window open).  The reward and randomization
logic of the four task files under
`src/rimro/envs/metaworld/envs/mujoco/sawyer_xyz/v2/` is embedded
shallowly over the real numbers: numpy float vectors become triples of
reals, `np.linalg.norm` becomes the Euclidean norm via `Real.sqrt`, and
the per-task `compute_reward` / `evaluate_state` methods become pure
functions of an explicit episode-state record.
-/

namespace RIMRO

/-- A 3D position vector (numpy array of length 3). -/
structure Vec3 where
  x : ℝ
  y : ℝ
  z : ℝ

/-- Euclidean norm of a 3-vector, `np.linalg.norm(v)`. -/
noncomputable def norm3 (v : Vec3) : ℝ :=
  Real.sqrt (v.x ^ 2 + v.y ^ 2 + v.z ^ 2)

/-- Euclidean distance between two 3D points, `np.linalg.norm(a - b)`. -/
noncomputable def dist3 (a b : Vec3) : ℝ :=
  norm3 ⟨a.x - b.x, a.y - b.y, a.z - b.z⟩

/-- Euclidean norm of a 2-vector, `np.linalg.norm` on a length-2 slice. -/
noncomputable def norm2 (x y : ℝ) : ℝ :=
  Real.sqrt (x ^ 2 + y ^ 2)

/-- `float(cond)` applied to a boolean test, as used for the info dict. -/
noncomputable def boolFloat (p : Prop) [Decidable p] : ℝ :=
  if p then 1 else 0

/-- Modelled from the spec: the `long_tail` falloff family of the
tolerance shaping function in `metaworld.envs.reward_utils`, whose
source is not under `src/`.  The spec fixes only its qualitative shape
(a slow, heavier-than-Gaussian decay of the normalized overshoot, with
values in `[0,1]`); no claim depends on its pointwise values outside
the in-bounds branch. -/
noncomputable def long_tail (d : ℝ) : ℝ :=
  1 / (1 + d ^ 2)

/-- Modelled from the spec: the Tolerance Shaping Function
`reward_utils.tolerance` (source not under `src/`).  Given a scalar
`value`, a target interval `[lo, hi]` and a `margin`, it returns `1.0`
when `value` lies inside `[lo, hi]` and otherwise applies the selected
decay curve (here `long_tail`) to the normalized overshoot
`(value - hi) / margin` above, or `(lo - value) / margin` below. -/
noncomputable def tolerance (value lo hi margin : ℝ) : ℝ :=
  if lo ≤ value ∧ value ≤ hi then 1
  else if hi < value then long_tail ((value - hi) / margin)
  else long_tail ((lo - value) / margin)

/-- Modelled from the spec: the smooth-conjunction combinator
`reward_utils.hamacher_product` (source not under `src/`).  On scores
`a, b` it returns `(a*b) / (a + b - a*b)`, with the convention that the
result is `0` when both inputs are `0` (avoiding `0/0`). -/
noncomputable def hamacher_product (a b : ℝ) : ℝ :=
  if a = 0 ∧ b = 0 then 0 else (a * b) / (a + b - a * b)

/-- The slots of the flat observation vector that the four
`compute_reward` bodies read: `obs[3]` (the gripper-opening scalar,
bound to `tcp_opened` / `tcp_open`) and `obs[4:7]` (the object
position). -/
structure Obs where
  tcp_opened : ℝ
  obj : Vec3

/-- The named diagnostics each `evaluate_state` returns, in the info
dict keys `success`, `near_object`, `grasp_success`, `grasp_reward`,
`in_place_reward`, `obj_to_target`, `unscaled_reward`. -/
structure Info where
  success : ℝ
  near_object : ℝ
  grasp_success : ℝ
  grasp_reward : ℝ
  in_place_reward : ℝ
  obj_to_target : ℝ
  unscaled_reward : ℝ

/-- The message carried by the precondition failure of the
`_assert_task_is_set` guard. -/
def taskNotSetMsg : String := "task has not been configured by a reset"

/-- Modelled from the spec: the `_assert_task_is_set` decorator of
`SawyerXYZEnv` (source not under `src/`), wrapping every task's
`evaluate_state`.  Evaluation before a reset has configured the task is
a precondition violation: the call fails fast with an error instead of
returning any reward or info value. -/
def guarded {α : Type} (task_is_set : Bool) (result : α) : Except String α :=
  if task_is_set then Except.ok result else Except.error taskNotSetMsg

/-! ## Plate slide back side (sawyer_plate_slide_back_side_v2.py) -/

/-- The episode state read by the plate-slide task's `compute_reward`:
`self.tcp_center`, `self._target_pos`, `self.obj_init_pos`,
`self.init_tcp`. -/
structure PlateState where
  tcp_center : Vec3
  target_pos : Vec3
  obj_init_pos : Vec3
  init_tcp : Vec3

/-- The tuple returned by the plate-slide `compute_reward`. -/
structure PlateReward where
  reward : ℝ
  tcp_to_obj : ℝ
  tcp_opened : ℝ
  obj_to_target : ℝ
  object_grasped : ℝ
  in_place : ℝ

/-- `SawyerPlateSlideBackSideEnvV2.compute_reward`, translated line by
line from the source (lines 128-160). -/
noncomputable def plate_compute_reward (s : PlateState) (obs : Obs) : PlateReward :=
  let TARGET_RADIUS : ℝ := 0.05
  let tcp := s.tcp_center
  let obj := obs.obj
  let tcp_opened := obs.tcp_opened
  let target := s.target_pos
  let obj_to_target := dist3 obj target
  let in_place_margin := dist3 s.obj_init_pos target
  let in_place := tolerance obj_to_target 0 TARGET_RADIUS (in_place_margin - TARGET_RADIUS)
  let tcp_to_obj := dist3 tcp obj
  let obj_grasped_margin := dist3 s.init_tcp s.obj_init_pos
  let object_grasped := tolerance tcp_to_obj 0 TARGET_RADIUS (obj_grasped_margin - TARGET_RADIUS)
  let reward := 1.5 * object_grasped
  let reward := if tcp.z ≤ 0.03 ∧ tcp_to_obj < 0.07 then 2 + 7 * in_place else reward
  let reward := if obj_to_target < TARGET_RADIUS then 10.0 else reward
  ⟨reward, tcp_to_obj, tcp_opened, obj_to_target, object_grasped, in_place⟩

/-- `SawyerPlateSlideBackSideEnvV2.evaluate_state` (lines 67-90), minus
the `_assert_task_is_set` wrapper, which is modelled by `guarded`. -/
noncomputable def plate_evaluate_state (s : PlateState) (obs : Obs) : ℝ × Info :=
  let r := plate_compute_reward s obs
  let success := boolFloat (r.obj_to_target ≤ 0.07)
  let near_object := boolFloat (r.tcp_to_obj ≤ 0.03)
  (r.reward,
   { success := success
     near_object := near_object
     grasp_success := 0.0
     grasp_reward := r.object_grasped
     in_place_reward := r.in_place
     obj_to_target := r.obj_to_target
     unscaled_reward := r.reward })

/-- The plate-slide `evaluate_state` with its `_assert_task_is_set`
guard. -/
noncomputable def plate_evaluate_state_guarded (task_is_set : Bool)
    (s : PlateState) (obs : Obs) : Except String (ℝ × Info) :=
  guarded task_is_set (plate_evaluate_state s obs)

/-! ## Reach (sawyer_reach_v2.py) -/

/-- The episode state read by the reach task's `compute_reward`:
`self.tcp_center`, `self._target_pos`, `self.hand_init_pos`. -/
structure ReachState where
  tcp_center : Vec3
  target_pos : Vec3
  hand_init_pos : Vec3

/-- The tuple returned by the reach `compute_reward`. -/
structure ReachReward where
  reward : ℝ
  tcp_to_target : ℝ
  in_place : ℝ

/-- `SawyerReachEnvV2.compute_reward` (lines 137-155).  The observation
argument is read only through commented-out code in the source, so it
does not appear. -/
noncomputable def reach_compute_reward (s : ReachState) : ReachReward :=
  let TARGET_RADIUS : ℝ := 0.05
  let tcp := s.tcp_center
  let target := s.target_pos
  let tcp_to_target := dist3 tcp target
  let in_place_margin := dist3 s.hand_init_pos target
  let in_place := tolerance tcp_to_target 0 TARGET_RADIUS in_place_margin
  ⟨10 * in_place, tcp_to_target, in_place⟩

/-- `SawyerReachEnvV2.evaluate_state` (lines 68-83), minus the
`_assert_task_is_set` wrapper. -/
noncomputable def reach_evaluate_state (s : ReachState) : ℝ × Info :=
  let r := reach_compute_reward s
  let success := boolFloat (r.tcp_to_target ≤ 0.05)
  (r.reward,
   { success := success
     near_object := r.tcp_to_target
     grasp_success := 1.0
     grasp_reward := r.tcp_to_target
     in_place_reward := r.in_place
     obj_to_target := r.tcp_to_target
     unscaled_reward := r.reward })

/-- The reach `evaluate_state` with its `_assert_task_is_set` guard. -/
noncomputable def reach_evaluate_state_guarded (task_is_set : Bool)
    (s : ReachState) : Except String (ℝ × Info) :=
  guarded task_is_set (reach_evaluate_state s)

/-- `SawyerReachEnvV2.fix_extreme_obj_pos` (lines 92-100): `body_com` is
`self.get_body_com("obj")` and `orig` is the original init position.
The source computes `diff = body_com[:2] - body_com[:2]`, adds it to
`orig[:2]`, and returns that xy pair with `body_com[2]` as height. -/
noncomputable def fix_extreme_obj_pos (body_com orig : Vec3) : Vec3 :=
  let diff_x := body_com.x - body_com.x
  let diff_y := body_com.y - body_com.y
  let adjusted_x := orig.x + diff_x
  let adjusted_y := orig.y + diff_y
  ⟨adjusted_x, adjusted_y, body_com.z⟩

/-- A 6-dimensional sample from `self._get_state_rand_vec()` in the
reach task's `reset_model`: slots `[:3]` are the object position, slots
`[3:]` the goal position. -/
structure Sample6 where
  obj : Vec3
  goal : Vec3

/-- The separation tested by the reach `reset_model` rejection loop:
`np.linalg.norm(goal_pos[:2] - self._target_pos[:2])` with
`self._target_pos = goal_pos[3:]`, i.e. the xy distance between the
sampled object position and the sampled goal position. -/
noncomputable def reach_sep (v : Sample6) : ℝ :=
  norm2 (v.obj.x - v.goal.x) (v.obj.y - v.goal.y)

/-- The rejection-sampling loop of `SawyerReachEnvV2.reset_model`
(lines 126-131): starting from the sample at index `i` of the stream of
`_get_state_rand_vec()` draws, resample while `reach_sep < 0.15`.  The
source loop is unbounded; `fuel` bounds the embedding, with `none`
standing for non-termination within the budget. -/
noncomputable def reach_sample_loop (stream : ℕ → Sample6) (i : ℕ) :
    ℕ → Option Sample6
  | 0 => if reach_sep (stream i) < 0.15 then none else some (stream i)
  | fuel + 1 =>
      if reach_sep (stream i) < 0.15 then reach_sample_loop stream (i + 1) fuel
      else some (stream i)

/-- The randomized part of `SawyerReachEnvV2.reset_model`
(lines 126-132): run the rejection loop, then set
`obj_init_pos = goal_pos[:3]` and `_target_pos = goal_pos[-3:]`. -/
noncomputable def reach_reset_model (stream : ℕ → Sample6) (fuel : ℕ) :
    Option (Vec3 × Vec3) :=
  match reach_sample_loop stream 0 fuel with
  | none => none
  | some v => some (v.obj, v.goal)

/-! ## Button press wall (sawyer_button_press_wall_v2.py) -/

/-- The episode state read by the button-press task's `compute_reward`:
`self.tcp_center`, `self.init_tcp`, `self._target_pos`,
`self._obj_to_target_init` (cached by `reset_model`). -/
structure ButtonState where
  tcp_center : Vec3
  init_tcp : Vec3
  target_pos : Vec3
  obj_to_target_init : ℝ

/-- The tuple returned by the button-press `compute_reward`. -/
structure ButtonReward where
  reward : ℝ
  tcp_to_obj : ℝ
  tcp_open : ℝ
  obj_to_target : ℝ
  near_button : ℝ
  button_pressed : ℝ

/-- `SawyerButtonPressWallEnvV2.compute_reward` (lines 119-149).  The
action argument is deleted by the source (`del action`), so it does not
appear. -/
noncomputable def button_compute_reward (s : ButtonState) (obs : Obs) : ButtonReward :=
  let obj := obs.obj
  let tcp := s.tcp_center
  let tcp_to_obj := dist3 obj tcp
  let tcp_to_obj_init := dist3 obj s.init_tcp
  let obj_to_target := |s.target_pos.y - obj.y|
  let near_button := tolerance tcp_to_obj 0 0.01 tcp_to_obj_init
  let button_pressed := tolerance obj_to_target 0 0.005 s.obj_to_target_init
  let reward :=
    if 0.07 < tcp_to_obj then
      let tcp_status := (1 - obs.tcp_opened) / 2
      2 * hamacher_product tcp_status near_button
    else
      2 + 2 * (1 + obs.tcp_opened) + 4 * button_pressed ^ 2
  ⟨reward, tcp_to_obj, obs.tcp_opened, obj_to_target, near_button, button_pressed⟩

/-- `SawyerButtonPressWallEnvV2.evaluate_state` (lines 51-72), minus the
`_assert_task_is_set` wrapper. -/
noncomputable def button_evaluate_state (s : ButtonState) (obs : Obs) : ℝ × Info :=
  let r := button_compute_reward s obs
  (r.reward,
   { success := boolFloat (r.obj_to_target ≤ 0.03)
     near_object := boolFloat (r.tcp_to_obj ≤ 0.05)
     grasp_success := boolFloat (0 < r.tcp_open)
     grasp_reward := r.near_button
     in_place_reward := r.button_pressed
     obj_to_target := r.obj_to_target
     unscaled_reward := r.reward })

/-- The button-press `evaluate_state` with its `_assert_task_is_set`
guard. -/
noncomputable def button_evaluate_state_guarded (task_is_set : Bool)
    (s : ButtonState) (obs : Obs) : Except String (ℝ × Info) :=
  guarded task_is_set (button_evaluate_state s obs)

/-! ## Window open (sawyer_window_open_v2.py) -/

/-- The episode state read by the window-open task's `compute_reward`:
the live handle position `self._get_pos_objects()`, `self.tcp_center`,
`self._target_pos`, `self.obj_init_pos`,
`self.window_handle_pos_init`, `self.init_tcp`. -/
structure WindowState where
  obj_pos : Vec3
  tcp_center : Vec3
  target_pos : Vec3
  obj_init_pos : Vec3
  window_handle_pos_init : Vec3
  init_tcp : Vec3

/-- The tuple returned by the window-open `compute_reward`. -/
structure WindowReward where
  reward : ℝ
  tcp_to_obj : ℝ
  tcp_opened : ℝ
  target_to_obj : ℝ
  object_grasped : ℝ
  in_place : ℝ

/-- `SawyerWindowOpenEnvV2.TARGET_RADIUS`. -/
noncomputable def window_TARGET_RADIUS : ℝ := 0.05

/-- `SawyerWindowOpenEnvV2.compute_reward` (lines 142-173).  The action
argument is deleted by the source and the observation argument is never
read (the body queries `self._get_pos_objects()` directly), so neither
appears.  `np.linalg.norm` of the scalar slide-axis difference is its
absolute value. -/
noncomputable def window_compute_reward (s : WindowState) : WindowReward :=
  let obj := s.obj_pos
  let tcp := s.tcp_center
  let target := s.target_pos
  let target_to_obj := |obj.x - target.x|
  let target_to_obj_init := |s.obj_init_pos.x - target.x|
  let in_place := tolerance target_to_obj 0 window_TARGET_RADIUS
    |target_to_obj_init - window_TARGET_RADIUS|
  let handle_radius : ℝ := 0.02
  let tcp_to_obj := dist3 obj tcp
  let tcp_to_obj_init := dist3 s.window_handle_pos_init s.init_tcp
  let reach_score := tolerance tcp_to_obj 0 handle_radius
    |tcp_to_obj_init - handle_radius|
  let tcp_opened : ℝ := 0
  let object_grasped := reach_score
  let reward := 10 * hamacher_product reach_score in_place
  ⟨reward, tcp_to_obj, tcp_opened, target_to_obj, object_grasped, in_place⟩

/-- `SawyerWindowOpenEnvV2.evaluate_state` (lines 72-93), minus the
`_assert_task_is_set` wrapper. -/
noncomputable def window_evaluate_state (s : WindowState) : ℝ × Info :=
  let r := window_compute_reward s
  (r.reward,
   { success := boolFloat (r.target_to_obj ≤ window_TARGET_RADIUS)
     near_object := boolFloat (r.tcp_to_obj ≤ 0.05)
     grasp_success := 1.0
     grasp_reward := r.object_grasped
     in_place_reward := r.in_place
     obj_to_target := r.target_to_obj
     unscaled_reward := r.reward })

/-- The window-open `evaluate_state` with its `_assert_task_is_set`
guard. -/
noncomputable def window_evaluate_state_guarded (task_is_set : Bool)
    (s : WindowState) : Except String (ℝ × Info) :=
  guarded task_is_set (window_evaluate_state s)

/-! ## `evaluate_state` as a state transformer

Each task's `evaluate_state` (and the `compute_reward` it calls) reads
the episode fields cached by the last reset but assigns to no field of
`self`; the state-transformer embedding records this by returning the
input state unchanged alongside the output. -/

/-- The plate-slide `evaluate_state` as a state transformer over the
episode state (source lines 67-90 contain no assignment to `self`). -/
noncomputable def plate_evaluate_state_step (s : PlateState) (obs : Obs) :
    (ℝ × Info) × PlateState :=
  (plate_evaluate_state s obs, s)

/-- The reach `evaluate_state` as a state transformer over the episode
state (source lines 68-83 contain no assignment to `self`). -/
noncomputable def reach_evaluate_state_step (s : ReachState) :
    (ℝ × Info) × ReachState :=
  (reach_evaluate_state s, s)

/-- The button-press `evaluate_state` as a state transformer over the
episode state (source lines 51-72 contain no assignment to `self`). -/
noncomputable def button_evaluate_state_step (s : ButtonState) (obs : Obs) :
    (ℝ × Info) × ButtonState :=
  (button_evaluate_state s obs, s)

/-- The window-open `evaluate_state` as a state transformer over the
episode state (source lines 72-93 contain no assignment to `self`). -/
noncomputable def window_evaluate_state_step (s : WindowState) :
    (ℝ × Info) × WindowState :=
  (window_evaluate_state s, s)

/-! ## Helper lemmas -/

/-- The tolerance shaping function returns exactly 1 inside `[lo, hi]`. -/
theorem tolerance_in_bounds (value lo hi margin : ℝ)
    (h1 : lo ≤ value) (h2 : value ≤ hi) :
    tolerance value lo hi margin = 1 := by
  unfold tolerance
  rw [if_pos ⟨h1, h2⟩]

/-- `float(cond)` equals 1 exactly when the condition holds. -/
theorem boolFloat_eq_one_iff (p : Prop) [Decidable p] :
    boolFloat p = 1 ↔ p := by
  unfold boolFloat
  split
  · simp_all
  · simp_all

/-! ## Claim theorems -/

/-- C1: in the plate-slide task, whenever the 3D distance from the
object to the target is strictly less than 0.05, `compute_reward`
returns exactly 10.0 as the scalar reward, regardless of the values of
the other shaping terms (object_grasped, in_place, gripper state). -/
theorem plate_reward_clamped_at_success (s : PlateState) (obs : Obs)
    (h : dist3 obs.obj s.target_pos < 0.05) :
    (plate_compute_reward s obs).reward = 10 := by
  simp only [plate_compute_reward]
  rw [if_pos h]
  norm_num

/-- Witness for C1 at the origin configuration, where the object sits
exactly on the target. -/
theorem plate_reward_clamped_at_success_witness :
    dist3 (⟨0, 0, 0⟩ : Vec3) ⟨0, 0, 0⟩ < 0.05 ∧
    (plate_compute_reward ⟨⟨0, 0, 0⟩, ⟨0, 0, 0⟩, ⟨0, 0, 0⟩, ⟨0, 0, 0⟩⟩
      ⟨0, ⟨0, 0, 0⟩⟩).reward = 10 := by
  have h : dist3 (⟨0, 0, 0⟩ : Vec3) ⟨0, 0, 0⟩ < 0.05 := by
    simp only [dist3, norm3]
    norm_num
  exact ⟨h, plate_reward_clamped_at_success _ _ h⟩

/-- C2: in the reach task, `compute_reward` returns exactly
`10 * in_place`, where `in_place` is the long_tail tolerance score of
the 3D gripper-to-target distance with bounds `(0, 0.05)` and margin the
initial-hand-to-target distance; no other term contributes. -/
theorem reach_reward_is_ten_times_in_place (s : ReachState) :
    (reach_compute_reward s).reward =
      10 * tolerance (dist3 s.tcp_center s.target_pos) 0 0.05
        (dist3 s.hand_init_pos s.target_pos) ∧
    (reach_compute_reward s).in_place =
      tolerance (dist3 s.tcp_center s.target_pos) 0 0.05
        (dist3 s.hand_init_pos s.target_pos) ∧
    (reach_compute_reward s).reward = 10 * (reach_compute_reward s).in_place :=
  ⟨rfl, rfl, rfl⟩

/-- C4: for every one of the four task environments, calling the
step-evaluation operation before a reset has configured the task fails
fast with a precondition-violation error rather than returning any
reward or info value. -/
theorem evaluate_state_before_reset_errors :
    (∀ (s : PlateState) (obs : Obs),
      plate_evaluate_state_guarded false s obs = Except.error taskNotSetMsg) ∧
    (∀ s : ReachState,
      reach_evaluate_state_guarded false s = Except.error taskNotSetMsg) ∧
    (∀ (s : ButtonState) (obs : Obs),
      button_evaluate_state_guarded false s obs = Except.error taskNotSetMsg) ∧
    (∀ s : WindowState,
      window_evaluate_state_guarded false s = Except.error taskNotSetMsg) :=
  ⟨fun _ _ => rfl, fun _ => rfl, fun _ _ => rfl, fun _ => rfl⟩

/-- C7: for every task, running the step evaluation twice with the same
observation and action and no intervening reset yields the identical
reward/info output and leaves the episode state unchanged. -/
theorem evaluate_state_idempotent :
    (∀ (s : PlateState) (obs : Obs),
      (plate_evaluate_state_step s obs).2 = s ∧
      plate_evaluate_state_step (plate_evaluate_state_step s obs).2 obs =
        plate_evaluate_state_step s obs) ∧
    (∀ s : ReachState,
      (reach_evaluate_state_step s).2 = s ∧
      reach_evaluate_state_step (reach_evaluate_state_step s).2 =
        reach_evaluate_state_step s) ∧
    (∀ (s : ButtonState) (obs : Obs),
      (button_evaluate_state_step s obs).2 = s ∧
      button_evaluate_state_step (button_evaluate_state_step s obs).2 obs =
        button_evaluate_state_step s obs) ∧
    (∀ s : WindowState,
      (window_evaluate_state_step s).2 = s ∧
      window_evaluate_state_step (window_evaluate_state_step s).2 =
        window_evaluate_state_step s) :=
  ⟨fun _ _ => ⟨rfl, rfl⟩, fun _ => ⟨rfl, rfl⟩,
   fun _ _ => ⟨rfl, rfl⟩, fun _ => ⟨rfl, rfl⟩⟩

/-- C9: in the plate-slide task, the `grasp_success` entry of the info
dict returned by `evaluate_state` is the constant 0.0, independent of
gripper state, object position, or any shaping term. -/
theorem plate_grasp_success_constant_zero (s : PlateState) (obs : Obs) :
    (plate_evaluate_state s obs).2.grasp_success = 0 := by
  norm_num [plate_evaluate_state]

/-- C10: in the reach task, `fix_extreme_obj_pos` applies a zero
adjustment: the mesh-alignment difference is the zero vector, so the
returned position keeps the input's first two coordinates and replaces
only the z coordinate with the body's center-of-mass height. -/
theorem fix_extreme_obj_pos_zero_adjustment (body_com orig : Vec3) :
    fix_extreme_obj_pos body_com orig = ⟨orig.x, orig.y, body_com.z⟩ := by
  simp [fix_extreme_obj_pos]

/-- Every sample the reach rejection loop returns satisfies the
minimum-separation constraint. -/
theorem reach_sample_loop_sep (stream : ℕ → Sample6) :
    ∀ (fuel i : ℕ) (v : Sample6),
      reach_sample_loop stream i fuel = some v → 0.15 ≤ reach_sep v := by
  intro fuel
  induction fuel with
  | zero =>
    intro i v h
    unfold reach_sample_loop at h
    split at h
    · exact Option.noConfusion h
    · next hc =>
      obtain rfl := Option.some.inj h
      exact not_lt.mp hc
  | succ n ih =>
    intro i v h
    unfold reach_sample_loop at h
    split at h
    · exact ih (i + 1) v h
    · next hc =>
      obtain rfl := Option.some.inj h
      exact not_lt.mp hc

/-- C3: every configuration produced by the reach task's `reset_model`
rejection-sampling loop has an xy distance of at least 0.15 between the
sampled object position and the sampled goal position. -/
theorem reach_reset_min_separation (stream : ℕ → Sample6) (fuel : ℕ)
    (o t : Vec3) (h : reach_reset_model stream fuel = some (o, t)) :
    0.15 ≤ norm2 (o.x - t.x) (o.y - t.y) := by
  unfold reach_reset_model at h
  split at h
  · exact Option.noConfusion h
  · next v hv =>
    injection h with h2
    injection h2 with ho ht
    subst ho
    subst ht
    exact reach_sample_loop_sep stream fuel 0 v hv

/-- Witness for C3: a stream whose first draw already satisfies the
constraint is returned unchanged, with xy separation 1. -/
theorem reach_reset_min_separation_witness :
    reach_reset_model (fun _ => ⟨⟨1, 0, 0⟩, ⟨0, 0, 0⟩⟩) 0 =
      some (⟨1, 0, 0⟩, ⟨0, 0, 0⟩) ∧
    0.15 ≤ norm2 ((1 : ℝ) - 0) ((0 : ℝ) - 0) := by
  have hsep : ¬ reach_sep ⟨⟨1, 0, 0⟩, ⟨0, 0, 0⟩⟩ < 0.15 := by
    simp only [reach_sep, norm2]
    rw [show ((1 : ℝ) - 0) ^ 2 + ((0 : ℝ) - 0) ^ 2 = 1 by norm_num,
      Real.sqrt_one]
    norm_num
  have h : reach_reset_model (fun _ => ⟨⟨1, 0, 0⟩, ⟨0, 0, 0⟩⟩) 0 =
      some (⟨1, 0, 0⟩, ⟨0, 0, 0⟩) := by
    unfold reach_reset_model reach_sample_loop
    rw [if_neg hsep]
  refine ⟨h, ?_⟩
  exact reach_reset_min_separation (fun _ => ⟨⟨1, 0, 0⟩, ⟨0, 0, 0⟩⟩) 0
    ⟨1, 0, 0⟩ ⟨0, 0, 0⟩ h

/-- C5: the button-press `compute_reward` is staged on the threshold
`tcp_to_obj > 0.07`: in the far regime the reward is twice the Hamacher
product of the coarse gripper signal `(1 - obs[3])/2` and the
near_button tolerance score; in the near regime it is the sum
`2 + 2*(1 + obs[3]) + 4 * button_pressed^2`. -/
theorem button_reward_staged (s : ButtonState) (obs : Obs) :
    (0.07 < (button_compute_reward s obs).tcp_to_obj →
      (button_compute_reward s obs).reward =
        2 * hamacher_product ((1 - obs.tcp_opened) / 2)
          (button_compute_reward s obs).near_button) ∧
    ((button_compute_reward s obs).tcp_to_obj ≤ 0.07 →
      (button_compute_reward s obs).reward =
        2 + 2 * (1 + obs.tcp_opened) +
          4 * (button_compute_reward s obs).button_pressed ^ 2) := by
  constructor
  · intro h
    simp only [button_compute_reward] at h ⊢
    rw [if_pos h]
  · intro h
    simp only [button_compute_reward] at h ⊢
    rw [if_neg (not_lt.mpr h)]

/-- Witness for C5 in the far regime: the gripper at the origin and the
button one unit away, so `tcp_to_obj = 1 > 0.07`. -/
theorem button_reward_staged_witness :
    0.07 < (button_compute_reward ⟨⟨0, 0, 0⟩, ⟨0, 0, 0⟩, ⟨0, 0, 0⟩, 1⟩
      ⟨0, ⟨1, 0, 0⟩⟩).tcp_to_obj ∧
    (button_compute_reward ⟨⟨0, 0, 0⟩, ⟨0, 0, 0⟩, ⟨0, 0, 0⟩, 1⟩
      ⟨0, ⟨1, 0, 0⟩⟩).reward =
      2 * hamacher_product ((1 - (0 : ℝ)) / 2)
        (button_compute_reward ⟨⟨0, 0, 0⟩, ⟨0, 0, 0⟩, ⟨0, 0, 0⟩, 1⟩
          ⟨0, ⟨1, 0, 0⟩⟩).near_button := by
  have h : (0.07 : ℝ) < (button_compute_reward
      ⟨⟨0, 0, 0⟩, ⟨0, 0, 0⟩, ⟨0, 0, 0⟩, 1⟩ ⟨0, ⟨1, 0, 0⟩⟩).tcp_to_obj := by
    simp only [button_compute_reward, dist3, norm3]
    rw [show ((1 : ℝ) - 0) ^ 2 + ((0 : ℝ) - 0) ^ 2 + ((0 : ℝ) - 0) ^ 2 = 1
      by norm_num, Real.sqrt_one]
    norm_num
  exact ⟨h, (button_reward_staged _ _).1 h⟩

/-- C6: in the window-open task, when the 1D slide-axis distance from
handle to target is 0, the `in_place` tolerance score is 1.0 and the
`success` info entry is 1.0; moreover success is reported exactly when
`target_to_obj ≤ 0.05`. -/
theorem window_in_place_and_success_at_target (s : WindowState) :
    ((window_compute_reward s).target_to_obj = 0 →
      (window_compute_reward s).in_place = 1 ∧
      (window_evaluate_state s).2.success = 1) ∧
    ((window_evaluate_state s).2.success = 1 ↔
      (window_compute_reward s).target_to_obj ≤ 0.05) := by
  constructor
  · intro h
    simp only [window_compute_reward] at h
    constructor
    · simp only [window_compute_reward]
      rw [h]
      exact tolerance_in_bounds _ _ _ _ le_rfl (by norm_num [window_TARGET_RADIUS])
    · simp only [window_evaluate_state, window_compute_reward]
      refine (boolFloat_eq_one_iff _).mpr ?_
      rw [h]
      norm_num [window_TARGET_RADIUS]
  · simp only [window_evaluate_state, window_TARGET_RADIUS]
    exact boolFloat_eq_one_iff _

/-- Witness for C6 with the handle exactly on the target. -/
theorem window_in_place_and_success_at_target_witness :
    (window_compute_reward ⟨⟨0, 0, 0⟩, ⟨0, 0, 0⟩, ⟨0, 0, 0⟩, ⟨0, 0, 0⟩,
      ⟨0, 0, 0⟩, ⟨0, 0, 0⟩⟩).target_to_obj = 0 ∧
    (window_compute_reward ⟨⟨0, 0, 0⟩, ⟨0, 0, 0⟩, ⟨0, 0, 0⟩, ⟨0, 0, 0⟩,
      ⟨0, 0, 0⟩, ⟨0, 0, 0⟩⟩).in_place = 1 ∧
    (window_evaluate_state ⟨⟨0, 0, 0⟩, ⟨0, 0, 0⟩, ⟨0, 0, 0⟩, ⟨0, 0, 0⟩,
      ⟨0, 0, 0⟩, ⟨0, 0, 0⟩⟩).2.success = 1 := by
  have h : (window_compute_reward ⟨⟨0, 0, 0⟩, ⟨0, 0, 0⟩, ⟨0, 0, 0⟩,
      ⟨0, 0, 0⟩, ⟨0, 0, 0⟩, ⟨0, 0, 0⟩⟩).target_to_obj = 0 := by
    simp [window_compute_reward]
  exact ⟨h, (window_in_place_and_success_at_target _).1 h⟩

/-- C8: the Hamacher product is symmetric, returns 0 whenever either
input is 0, and on scores in `[0,1]` returns 1 only when both inputs
are 1. -/
theorem hamacher_product_props (a b : ℝ) :
    hamacher_product a b = hamacher_product b a ∧
    (a = 0 ∨ b = 0 → hamacher_product a b = 0) ∧
    (0 ≤ a → a ≤ 1 → 0 ≤ b → b ≤ 1 → hamacher_product a b = 1 →
      a = 1 ∧ b = 1) := by
  refine ⟨?_, ?_, ?_⟩
  · by_cases h : a = 0 ∧ b = 0
    · simp only [hamacher_product]
      rw [if_pos h, if_pos ⟨h.2, h.1⟩]
    · simp only [hamacher_product]
      rw [if_neg h, if_neg (fun hc => h ⟨hc.2, hc.1⟩)]
      ring_nf
  · rintro (rfl | rfl)
    · by_cases hb : b = 0
      · subst hb
        simp [hamacher_product]
      · simp only [hamacher_product]
        rw [if_neg (fun hc => hb hc.2)]
        simp
    · by_cases ha : a = 0
      · subst ha
        simp [hamacher_product]
      · simp only [hamacher_product]
        rw [if_neg (fun hc => ha hc.1)]
        simp
  · intro ha0 ha1 hb0 hb1 h1
    by_cases h00 : a = 0 ∧ b = 0
    · exfalso
      simp only [hamacher_product, if_pos h00] at h1
      norm_num at h1
    · simp only [hamacher_product, if_neg h00] at h1
      have hD : a + b - a * b ≠ 0 := by
        intro hD
        have ha' : a = 0 := by nlinarith
        have hb' : b = 0 := by nlinarith
        exact h00 ⟨ha', hb'⟩
      have key : a * b = a + b - a * b := by
        field_simp at h1
        linarith
      have hz1 : a * (1 - b) = 0 := by
        have hnn1 : 0 ≤ a * (1 - b) := mul_nonneg ha0 (by linarith)
        have hnn2 : 0 ≤ b * (1 - a) := mul_nonneg hb0 (by linarith)
        nlinarith
      rcases mul_eq_zero.mp hz1 with ha' | hb'
      · exfalso
        have hb' : b = 0 := by
          rw [ha'] at key
          linarith
        exact h00 ⟨ha', hb'⟩
      · have hb1' : b = 1 := by linarith
        have ha1' : a = 1 := by
          rw [hb1'] at key
          linarith
        exact ⟨ha1', hb1'⟩

/-- Witness for C8: zero on a zero input, and 1 forces both inputs 1 at
the all-ones corner. -/
theorem hamacher_product_props_witness :
    hamacher_product 0 1 = 0 ∧ ((1 : ℝ) = 1 ∧ (1 : ℝ) = 1) := by
  refine ⟨(hamacher_product_props 0 1).2.1 (Or.inl rfl),
    (hamacher_product_props 1 1).2.2 (by norm_num) (by norm_num)
      (by norm_num) (by norm_num) ?_⟩
  simp only [hamacher_product]
  rw [if_neg (by norm_num)]
  norm_num

end RIMRO
